import Mathlib

/-!
Verification development for the codebase-audit pipeline.

Shallow embedding of the pipeline's pure computational core, translated from
the TypeScript sources:
  - the conditional deep-audit workflow steps (codebase-audit-workflow.ts),
  - the health-score weighted combination (codebase-health-score-tool),
  - the type/stack detector (codebaseType-detector-tool.ts),
  - the dependency risk analyzer helpers (dependency-analysis-tool),
  - the test-coverage analyzer (test-coverage-tool.ts).

Remote I/O (GitHub, npm registry, advisory feed) is modelled by passing the
fetched/parsed data as explicit arguments; a failing lookup is modelled with
`Except`/`Option` values.  JavaScript numbers are modelled as `ℚ` (with `ℤ`
where the source value is integral); a JavaScript arithmetic result that is
not a finite number (NaN or an infinity) is modelled as `Option.none` at the
point where it arises.
-/

namespace CodebaseAudit

/-! ## String primitives (executable stand-ins for JS String.prototype ops) -/

/-- `listPrefixOf xs ys` is true when the char list `xs` is a prefix of `ys`. -/
def listPrefixOf : List Char → List Char → Bool
  | [], _ => true
  | _ :: _, [] => false
  | c :: cs, d :: ds => c == d && listPrefixOf cs ds

/-- `listInfixOf needle hay` is true when `needle` occurs contiguously in `hay`. -/
def listInfixOf (needle : List Char) (hay : List Char) : Bool :=
  listPrefixOf needle hay ||
    match hay with
    | [] => false
    | _ :: rest => listInfixOf needle rest

/-- JS `b.startsWith(a)`. -/
def strPrefixOf (a b : String) : Bool := listPrefixOf a.toList b.toList

/-- JS `hay.includes(needle)`. -/
def strContains (hay needle : String) : Bool := listInfixOf needle.toList hay.toList

/-- JS `Math.round` on a rational: round half toward positive infinity. -/
def jsRound (q : ℚ) : ℤ := ⌊q + 1/2⌋

/-! ## Workflow deep-audit steps (codebase-audit-workflow.ts)

Each parallel step receives `{ repoUrl, health }`; when `health.score >= 80`
it returns an empty object `{}` (every field of its output schema is optional,
so `{}` is the all-absent record, modelled here with all fields `none`). -/

/-- The `health` block computed by the assess-health step. -/
structure HealthBlock where
  score : ℤ
  summary : String
deriving DecidableEq

/-- `assessHealth`: `Math.min(100, Math.floor(...))`; every summand is an
integer so the `Math.floor` is the identity. -/
def assessHealthScore (sizeKB commitCount openIssues : ℕ) (archived : Bool) : ℤ :=
  min 100
    ((if 1000 < sizeKB then (30 : ℤ) else 50) +
      (if 100 < commitCount then 20 else 10) +
      (if openIssues < 10 then 20 else 10) +
      (if archived then -20 else 0))

/-- Summary string attached to the score by `assessHealth`. -/
def assessHealthSummary (score : ℤ) : String :=
  if 80 ≤ score then "Healthy codebase" else "Needs full audit"

/-- A GitHub contributor record: `login` may be missing, `contributions` is a
commit count. -/
structure Contributor where
  login : Option String
  contributions : ℕ
deriving DecidableEq

/-- JS truthiness of a nullable string (`c.login` filter): null/undefined and
the empty string are falsy. -/
def jsTruthy : Option String → Bool
  | none => false
  | some s => !(s == "")

/-- Output of the git-analysis step (all schema fields optional). -/
structure GitAnalysis where
  commitFrequency : Option String
  busFactor : Option ℕ
  orphanedCode : Option (List String)
  contributors : Option (List (String × ℕ))
deriving DecidableEq

/-- The `{}` returned by `performGitAnalysis` when `score >= 80`. -/
def emptyGitAnalysis : GitAnalysis := ⟨none, none, none, none⟩

/-- `findOrphanedFiles` in the source ignores its arguments and returns this
literal list. -/
def findOrphanedFiles : List String := ["legacy/utils.js"]

/-- `performGitAnalysis.execute`, with the fetched commit page and contributor
list passed in explicitly. -/
def performGitAnalysis (score : ℤ) (commits : List String)
    (contributors : List Contributor) : GitAnalysis :=
  if 80 ≤ score then emptyGitAnalysis
  else
    { commitFrequency := some (if 50 < commits.length then "active" else "moderate")
      busFactor := some (min 3 contributors.length)
      orphanedCode := some findOrphanedFiles
      contributors := some
        (((contributors.filter fun c => jsTruthy c.login).take 5).map
          fun c => (c.login.getD "", c.contributions)) }

/-- Output of the static-analysis step. -/
structure StaticAnalysis where
  complexityHotspots : Option (List String)
  antiPatterns : Option (List String)
  documentationGaps : Option (List String)
deriving DecidableEq

/-- The `{}` returned by `performStaticAnalysis` when `score >= 80`. -/
def emptyStaticAnalysis : StaticAnalysis := ⟨none, none, none⟩

/-- `findDocumentationGaps` in the source ignores its arguments and returns
this literal list. -/
def findDocumentationGaps : List String := ["src/utils/helpers.ts"]

/-- `performStaticAnalysis.execute`: below the threshold it returns hardcoded
hotspots/anti-patterns plus `findDocumentationGaps`. -/
def performStaticAnalysis (score : ℤ) : StaticAnalysis :=
  if 80 ≤ score then emptyStaticAnalysis
  else
    { complexityHotspots := some ["src/auth/service.ts"]
      antiPatterns := some ["God object in UserController"]
      documentationGaps := some findDocumentationGaps }

/-- Output of the dependency-analysis step. -/
structure DependencyAnalysis where
  outdatedPackages : Option (List String)
  vulnerabilities : Option (List String)
  redundantDependencies : Option (List String)
deriving DecidableEq

/-- The `{}` returned by `performDependencyAnalysis` when `score >= 80`. -/
def emptyDependencyAnalysis : DependencyAnalysis := ⟨none, none, none⟩

/-- `performDependencyAnalysis.execute`: `pkgDeps` is the key list of
`pkg.dependencies` when package.json was fetched and parsed (`none` when
`getFileContent` returned null, in which case `pkg = {}`). -/
def performDependencyAnalysis (score : ℤ) (pkgDeps : Option (List String)) :
    DependencyAnalysis :=
  if 80 ≤ score then emptyDependencyAnalysis
  else
    { outdatedPackages := some ((pkgDeps.getD []).take 3)
      vulnerabilities := some ["lodash@4.17.15"]
      redundantDependencies := some ["left-pad"] }

/-- Output of the test-analysis step. -/
structure TestAnalysis where
  coveragePercentage : Option ℚ
  flakyTests : Option (List String)
  pipelineIssues : Option (List String)
deriving DecidableEq

/-- The `{}` returned by `performTestAnalysis` when `score >= 80`. -/
def emptyTestAnalysis : TestAnalysis := ⟨none, none, none⟩

/-- `performTestAnalysis.execute`: coverage is
`testFiles > 0 ? Math.min(80, (testFiles / srcFiles) * 100) : 0`; when
`srcFiles = 0` the JS quotient is `Infinity` and `Math.min` yields 80, modelled
by the explicit branch. -/
def performTestAnalysis (score : ℤ) (testFiles srcFiles : ℕ) : TestAnalysis :=
  if 80 ≤ score then emptyTestAnalysis
  else
    { coveragePercentage := some
        (if 0 < testFiles then
          (if srcFiles = 0 then 80
            else min 80 ((testFiles : ℚ) / (srcFiles : ℚ) * 100))
          else 0)
      flakyTests := some ["auth/login.test.ts"]
      pipelineIssues := some ["Slow build step"] }

/-- Output of the profile-codebase step (not gated on the score). -/
structure CodebaseProfile where
  type : String
  languages : List String
  frameworks : List String
  confidence : ℚ
  warnings : List String
deriving DecidableEq

/-- `profileCodebase.execute` (happy path): `packageJsonText` is the raw file
content (`none` when absent), `allDeps` the merged dependency/devDependency
key list. -/
def profileCodebase (packageJsonText : Option String) (isMonorepo : Bool)
    (allDeps : List String) : CodebaseProfile :=
  { type :=
      if isMonorepo then "Monorepo"
      else if allDeps.contains "react" then "Frontend"
      else "Backend"
    languages :=
      match packageJsonText with
      | some t => if strContains t "typescript" then ["TypeScript"] else ["JavaScript"]
      | none => ["JavaScript"]
    frameworks := allDeps.filter fun dep =>
      ["react", "vue", "angular", "express", "nestjs"].any fun f => strContains dep f
    confidence := 9/10
    warnings :=
      if allDeps.contains "lodash" then
        ["Lodash detected (consider modern alternatives)"]
      else [] }

/-- The merged output of the parallel branch (auditResultsSchema): the
pass-health step forwards `health`, the other steps contribute their sections. -/
structure AuditResults where
  health : HealthBlock
  profile : CodebaseProfile
  gitAnalysis : GitAnalysis
  staticAnalysis : StaticAnalysis
  dependencyAnalysis : DependencyAnalysis
  testAnalysis : TestAnalysis
deriving DecidableEq

/-- The fan-out/fan-in of the workflow: every step receives the same
`health`, and the merge is purely structural. -/
def buildAuditResults (health : HealthBlock) (profile : CodebaseProfile)
    (commits : List String) (contributors : List Contributor)
    (pkgDeps : Option (List String)) (testFiles srcFiles : ℕ) : AuditResults :=
  { health := health
    profile := profile
    gitAnalysis := performGitAnalysis health.score commits contributors
    staticAnalysis := performStaticAnalysis health.score
    dependencyAnalysis := performDependencyAnalysis health.score pkgDeps
    testAnalysis := performTestAnalysis health.score testFiles srcFiles }

/-! ## Health scorer (codebase-health-score-tool)

The tool computes seven sub-metrics in `[0,1]`, then combines them with the
caller-supplied weights after normalizing each weight by the total weight.
When the total weight is 0 the JS division `v / totalWeight` produces a
non-finite number (`0/0 = NaN`, since the input schema forces each weight to
be non-negative), which poisons the whole score; that non-finite outcome is
modelled as `none`.  Note that the source omits the `complexity` term from the
weighted sum even though it normalizes its weight. -/

/-- The seven sub-metric values, each in `[0,1]`. -/
structure HealthMetrics where
  testCoverage : ℚ
  activity : ℚ
  issues : ℚ
  documentation : ℚ
  complexity : ℚ
  dependencies : ℚ
  ci : ℚ
deriving DecidableEq

/-- The seven weights. -/
structure HealthWeights where
  testCoverage : ℚ
  activity : ℚ
  issues : ℚ
  documentation : ℚ
  complexity : ℚ
  dependencies : ℚ
  ci : ℚ
deriving DecidableEq

/-- `Object.values(weights).reduce((sum, w) => sum + w, 0)`. -/
def totalWeight (w : HealthWeights) : ℚ :=
  w.testCoverage + w.activity + w.issues + w.documentation + w.complexity +
    w.dependencies + w.ci

/-- The weighted-score calculation at the end of `codebaseHealthTool.execute`:
`Math.round(100 * Σ metric_i * (weight_i / totalWeight))` (complexity omitted,
as in the source).  `none` models the non-finite JS result when
`totalWeight = 0`. -/
def calculateWeightedScore (m : HealthMetrics) (w : HealthWeights) : Option ℤ :=
  if totalWeight w = 0 then none
  else some (jsRound (100 *
    (m.testCoverage * (w.testCoverage / totalWeight w) +
      m.activity * (w.activity / totalWeight w) +
      m.issues * (w.issues / totalWeight w) +
      m.documentation * (w.documentation / totalWeight w) +
      m.dependencies * (w.dependencies / totalWeight w) +
      m.ci * (w.ci / totalWeight w))))

/-- The all-zero weight assignment (each weight field of the input schema
allows 0, and no refinement constrains their sum). -/
def zeroWeights : HealthWeights := ⟨0, 0, 0, 0, 0, 0, 0⟩

/-- `checkFileExists` of the health tool: any failure of the content lookup
(404 or otherwise) is caught and reported as `false`; the function is total
and never re-throws. -/
def checkFileExists (lookup : Except String Unit) : Bool :=
  match lookup with
  | Except.ok _ => true
  | Except.error _ => false

/-- The documentation sub-metric: `(readme ? 0.6 : 0) + (license ? 0.4 : 0)`. -/
def documentationMetric (hasReadme hasLicense : Bool) : ℚ :=
  (if hasReadme then 3/5 else 0) + (if hasLicense then 2/5 else 0)

/-! ## Type/stack detector (codebaseType-detector-tool.ts) -/

/-- The fixed signature table `FRAMEWORK_SIGNATURES`:
category → (framework → identifying package names). -/
def FRAMEWORK_SIGNATURES : List (String × List (String × List String)) :=
  [ ("frontend",
      [ ("react", ["react", "react-dom"]),
        ("vue", ["vue", "vuex", "vue-router"]),
        ("angular", ["@angular/core", "@angular/common"]),
        ("svelte", ["svelte", "svelte-kit"]),
        ("nextjs", ["next"]),
        ("gatsby", ["gatsby"]),
        ("astro", ["astro"]),
        ("remix", ["@remix-run/react"]),
        ("solid", ["solid-js"]) ]),
    ("backend",
      [ ("express", ["express"]),
        ("nestjs", ["@nestjs/core"]),
        ("django", ["django", "djangorestframework"]),
        ("flask", ["flask"]),
        ("laravel", ["laravel/framework"]),
        ("spring", ["spring-core", "spring-boot"]),
        ("fastapi", ["fastapi"]),
        ("rails", ["rails"]),
        ("phoenix", ["phoenix"]),
        ("actix", ["actix-web"]) ]),
    ("web3",
      [ ("ethers", ["ethers"]),
        ("web3js", ["web3"]),
        ("hardhat", ["hardhat"]),
        ("truffle", ["truffle"]),
        ("wagmi", ["wagmi"]),
        ("foundry", ["forge-std"]),
        ("anchor", ["@project-serum/anchor"]),
        ("solana", ["@solana/web3.js"]) ]),
    ("ai",
      [ ("tensorflow", ["@tensorflow/tfjs", "tensorflow"]),
        ("pytorch", ["torch", "pytorch"]),
        ("langchain", ["langchain"]),
        ("llama", ["llama-index"]),
        ("openai", ["openai"]),
        ("huggingface", ["@huggingface/transformers"]),
        ("keras", ["keras"]),
        ("onnx", ["onnxruntime"]) ]),
    ("mobile",
      [ ("reactnative", ["react-native"]),
        ("flutter", ["flutter"]),
        ("ionic", ["@ionic/core"]),
        ("nativescript", ["nativescript"]),
        ("capacitor", ["@capacitor/core"]) ]),
    ("desktop",
      [ ("electron", ["electron"]),
        ("tauri", ["@tauri-apps/api"]),
        ("wails", ["wails"]) ]),
    ("css",
      [ ("tailwind", ["tailwindcss"]),
        ("bootstrap", ["bootstrap"]),
        ("materialui", ["@mui/material"]),
        ("chakra", ["@chakra-ui/react"]),
        ("styledcomponents", ["styled-components"]) ]),
    ("testing",
      [ ("jest", ["jest"]),
        ("mocha", ["mocha"]),
        ("cypress", ["cypress"]),
        ("playwright", ["playwright"]),
        ("vitest", ["vitest"]) ]),
    ("build",
      [ ("webpack", ["webpack"]),
        ("vite", ["vite"]),
        ("rollup", ["rollup"]),
        ("esbuild", ["esbuild"]),
        ("parcel", ["parcel"]) ]) ]

/-- The matching rule of `detectCodebaseType`: a signature identifier `id`
matches when some dependency name is exactly `id`, or `id` is a scoped
(`@`-prefixed) prefix of it, or `id` is a substring of it and longer than 3
characters. -/
def depMatchesId (depNames : List String) (id : String) : Bool :=
  depNames.any fun dep =>
    dep == id || (strPrefixOf "@" id && strPrefixOf id dep) ||
      (strContains dep id && decide (3 < id.toList.length))

/-- Accumulated state of the category/framework double loop: detected
categories (insertion order), the frameworks record, and the running
`totalMatches` count. -/
structure RawDetection where
  types : List String
  frameworks : List (String × List String)
  totalMatches : ℕ
deriving DecidableEq

/-- Inner loop over one category: the matched framework names (in table
order) and the number of matched identifiers. -/
def categoryMatches (depNames : List String)
    (fws : List (String × List String)) : List String × ℕ :=
  fws.foldl
    (fun acc fw =>
      let c := (fw.2.filter (depMatchesId depNames)).length
      if 0 < c then (acc.1 ++ [fw.1], acc.2 + c) else acc)
    ([], 0)

/-- The double loop of `detectCodebaseType` before the confidence phase:
a category is added (once) when any of its frameworks matched; the
frameworks record collects matched framework names per category. -/
def detectRaw (depNames : List String) : RawDetection :=
  FRAMEWORK_SIGNATURES.foldl
    (fun acc cat =>
      let r := categoryMatches depNames cat.2
      if r.1 = [] then acc
      else ⟨acc.types ++ [cat.1], acc.frameworks ++ [(cat.1, r.1)],
        acc.totalMatches + r.2⟩)
    ⟨[], [], 0⟩

/-- `Object.values(FRAMEWORK_SIGNATURES).flatMap(Object.values).flat().length`. -/
def totalPossibleIdentifiers : ℕ :=
  ((FRAMEWORK_SIGNATURES.map Prod.snd).flatten.map fun f => f.2.length).sum

/-- Confidence before the threshold check: `totalMatches / totalPossible`,
boosted by `min(1, c * 1.2)` when the frameworks record spans more than one
category (the JS literal 1.2 is modelled as the rational 12/10). -/
def boostedConfidence (raw : RawDetection) : ℚ :=
  let c : ℚ := (raw.totalMatches : ℚ) / (totalPossibleIdentifiers : ℚ)
  if 1 < raw.frameworks.length then min 1 (c * (12/10)) else c

/-- Final result of `detectCodebaseType`. -/
structure DetectionResult where
  types : List String
  frameworks : List (String × List String)
  confidence : ℚ
deriving DecidableEq

/-- `detectCodebaseType(analysis, confidenceThreshold)`: the dependency and
devDependency key lists are merged (`{...deps, ...devDeps}` key union), the
double loop runs, and then: below the threshold the detected types are
replaced by `["unknown"]` and the confidence by 0 (the frameworks record is
left untouched); independently, an empty type list falls back to
`["unknown"]`. -/
def detectCodebaseType (dependencies devDependencies : List String)
    (confidenceThreshold : ℚ) : DetectionResult :=
  if boostedConfidence (detectRaw ((dependencies ++ devDependencies).eraseDups)) <
      confidenceThreshold then
    ⟨["unknown"],
      (detectRaw ((dependencies ++ devDependencies).eraseDups)).frameworks, 0⟩
  else if (detectRaw ((dependencies ++ devDependencies).eraseDups)).types = [] then
    ⟨["unknown"],
      (detectRaw ((dependencies ++ devDependencies).eraseDups)).frameworks,
      boostedConfidence (detectRaw ((dependencies ++ devDependencies).eraseDups))⟩
  else
    ⟨(detectRaw ((dependencies ++ devDependencies).eraseDups)).types,
      (detectRaw ((dependencies ++ devDependencies).eraseDups)).frameworks,
      boostedConfidence (detectRaw ((dependencies ++ devDependencies).eraseDups))⟩

/-! ## Dependency risk analyzer (dependency-analysis-tool) -/

/-- The days-outdated expression exactly as written in the source:
`Math.floor(Date.now() - new Date(publishTime).getTime() / 86400000)` —
by operator precedence, only the publish time is divided by 86400000. -/
def computeDaysOutdated (nowMs publishMs : ℚ) : ℤ :=
  ⌊nowMs - publishMs / 86400000⌋

/-- Modelled from the spec: days-outdated is "measured from the latest
version's publish timestamp to now", i.e. the whole days elapsed
`floor((now - publishTime) / 86400000 ms)`.  Stated for comparison with
`computeDaysOutdated`. -/
def daysOutdatedPerSpec (nowMs publishMs : ℚ) : ℤ :=
  ⌊(nowMs - publishMs) / 86400000⌋

/-- `getHealthStatus`: fixed score bands. -/
def getHealthStatus (score : ℤ) : String :=
  if 90 ≤ score then "excellent"
  else if 80 ≤ score then "good"
  else if 60 ≤ score then "fair"
  else if 40 ≤ score then "poor"
  else "critical"

/-- An entry of `problematicDependencies`; `vulnerabilities` entries are
(severity, title) pairs. -/
structure ProblematicDep where
  name : String
  currentVersion : String
  latestVersion : String
  daysOutdated : ℤ
  vulnerabilities : List (String × String)
  license : Option String
  deprecated : Bool
deriving DecidableEq

/-- The sort comparator
`(b.vulnerabilities?.length || 0) - (a.vulnerabilities?.length || 0) || b.daysOutdated - a.daysOutdated`
as the induced before-or-equal relation (`comparator(a, b) <= 0`). -/
def depBefore (a b : ProblematicDep) : Bool :=
  decide (b.vulnerabilities.length < a.vulnerabilities.length ∨
    (b.vulnerabilities.length = a.vulnerabilities.length ∧
      b.daysOutdated ≤ a.daysOutdated))

/-- `problematicDeps.sort(comparator)`: a comparison sort with respect to
`depBefore`. -/
def sortProblematic (l : List ProblematicDep) : List ProblematicDep :=
  l.mergeSort depBefore

/-! ## Test coverage analyzer (test-coverage-tool.ts) -/

/-- A parsed coverage report, normalized to line totals and a percentage. -/
structure CoverageData where
  total : ℤ
  covered : ℤ
  percentage : ℚ
deriving DecidableEq

/-- `calculateAverageCoverage`: `Math.round` of the simple arithmetic mean of
the per-report line percentages. -/
def calculateAverageCoverage (reports : List CoverageData) : ℤ :=
  jsRound ((reports.map fun r => r.percentage).sum / (reports.length : ℚ))

/-- The result record of `testCoverageTool.execute`. -/
structure TestCoverageResult where
  coverage : ℤ
  reportCount : ℕ
  hasLowCoverage : Bool
  recommendations : List String
deriving DecidableEq

/-- `generateRecommendations(coverage, reportCount)`. -/
def generateRecommendations (coverage : ℤ) (reportCount : ℕ) : List String :=
  let recs :=
    (if coverage < 70 then
      [s!"Increase coverage (currently {coverage}%) to at least 70%"] else []) ++
    (if reportCount = 1 then
      ["Consider generating multiple coverage reports for different test types"]
      else [])
  if recs = [] then ["Coverage looks good! Maintain current standards"] else recs

/-- `noReportsFound()`: the fixed degenerate result. -/
def noReportsFound : TestCoverageResult :=
  { coverage := 0
    reportCount := 0
    hasLowCoverage := true
    recommendations :=
      ["No coverage reports found",
        "Add coverage tracking using tools like Jest, Istanbul, or Cobertura"] }

/-- `testCoverageTool.execute` after report discovery/parsing: `reports` is
the list of successfully parsed reports. -/
def testCoverageExecute (reports : List CoverageData) : TestCoverageResult :=
  if reports = [] then noReportsFound
  else
    { coverage := calculateAverageCoverage reports
      reportCount := reports.length
      hasLowCoverage := decide (calculateAverageCoverage reports < 70)
      recommendations :=
        generateRecommendations (calculateAverageCoverage reports) reports.length }

/-! ## Helper lemmas -/

lemma totalPossibleIdentifiers_eq : totalPossibleIdentifiers = 67 := by decide

lemma detectRaw_react :
    detectRaw ((["react", "react-dom"] ++ []).eraseDups) =
      ⟨["frontend"], [("frontend", ["react"])], 2⟩ := rfl

lemma react_raw_conf :
    boostedConfidence ⟨["frontend"], [("frontend", ["react"])], 2⟩ = 2/67 := by
  simp only [boostedConfidence, totalPossibleIdentifiers_eq]
  norm_num

lemma react_confidence_eq :
    boostedConfidence (detectRaw ((["react", "react-dom"] ++ []).eraseDups)) =
      2/67 := by
  rw [detectRaw_react]
  exact react_raw_conf

lemma detect_collapse_eq (dependencies devDependencies : List String)
    (confidenceThreshold : ℚ)
    (h : boostedConfidence
        (detectRaw ((dependencies ++ devDependencies).eraseDups)) <
      confidenceThreshold) :
    detectCodebaseType dependencies devDependencies confidenceThreshold =
      ⟨["unknown"],
        (detectRaw ((dependencies ++ devDependencies).eraseDups)).frameworks,
        0⟩ := by
  unfold detectCodebaseType
  rw [if_pos h]

lemma zeroWeights_total : totalWeight zeroWeights = 0 := by
  simp [totalWeight, zeroWeights]

lemma depBefore_trans (a b c : ProblematicDep) (hab : depBefore a b = true)
    (hbc : depBefore b c = true) : depBefore a c = true := by
  simp only [depBefore, decide_eq_true_eq] at hab hbc ⊢
  omega

lemma depBefore_total (a b : ProblematicDep) :
    (depBefore a b || depBefore b a) = true := by
  simp only [depBefore, Bool.or_eq_true, decide_eq_true_eq]
  omega

/-! ## Claim theorems -/

/-- Claim C1: in every audit run with assessed health score at or above the
threshold 80, each deep-audit analyzer step (git, static, dependency, test)
returns exactly its defined degenerate empty result (all optional fields
absent, never partially populated); in every run with score below 80, all
deep-audit analyzer outputs are present (every field populated, possibly with
empty lists) in the aggregated audit result. -/
theorem deep_audit_gating :
    ∀ (health : HealthBlock) (profile : CodebaseProfile) (commits : List String)
      (contributors : List Contributor) (pkgDeps : Option (List String))
      (testFiles srcFiles : ℕ),
      (80 ≤ health.score →
        (buildAuditResults health profile commits contributors pkgDeps testFiles
            srcFiles).gitAnalysis = emptyGitAnalysis ∧
        (buildAuditResults health profile commits contributors pkgDeps testFiles
            srcFiles).staticAnalysis = emptyStaticAnalysis ∧
        (buildAuditResults health profile commits contributors pkgDeps testFiles
            srcFiles).dependencyAnalysis = emptyDependencyAnalysis ∧
        (buildAuditResults health profile commits contributors pkgDeps testFiles
            srcFiles).testAnalysis = emptyTestAnalysis) ∧
      (health.score < 80 →
        ((buildAuditResults health profile commits contributors pkgDeps testFiles
            srcFiles).gitAnalysis.commitFrequency.isSome = true ∧
          (buildAuditResults health profile commits contributors pkgDeps testFiles
            srcFiles).gitAnalysis.busFactor.isSome = true ∧
          (buildAuditResults health profile commits contributors pkgDeps testFiles
            srcFiles).gitAnalysis.orphanedCode.isSome = true ∧
          (buildAuditResults health profile commits contributors pkgDeps testFiles
            srcFiles).gitAnalysis.contributors.isSome = true) ∧
        ((buildAuditResults health profile commits contributors pkgDeps testFiles
            srcFiles).staticAnalysis.complexityHotspots.isSome = true ∧
          (buildAuditResults health profile commits contributors pkgDeps testFiles
            srcFiles).staticAnalysis.antiPatterns.isSome = true ∧
          (buildAuditResults health profile commits contributors pkgDeps testFiles
            srcFiles).staticAnalysis.documentationGaps.isSome = true) ∧
        ((buildAuditResults health profile commits contributors pkgDeps testFiles
            srcFiles).dependencyAnalysis.outdatedPackages.isSome = true ∧
          (buildAuditResults health profile commits contributors pkgDeps testFiles
            srcFiles).dependencyAnalysis.vulnerabilities.isSome = true ∧
          (buildAuditResults health profile commits contributors pkgDeps testFiles
            srcFiles).dependencyAnalysis.redundantDependencies.isSome = true) ∧
        ((buildAuditResults health profile commits contributors pkgDeps testFiles
            srcFiles).testAnalysis.coveragePercentage.isSome = true ∧
          (buildAuditResults health profile commits contributors pkgDeps testFiles
            srcFiles).testAnalysis.flakyTests.isSome = true ∧
          (buildAuditResults health profile commits contributors pkgDeps testFiles
            srcFiles).testAnalysis.pipelineIssues.isSome = true)) := by
  intro health profile commits contributors pkgDeps testFiles srcFiles
  constructor
  · intro h
    simp [buildAuditResults, performGitAnalysis, performStaticAnalysis,
      performDependencyAnalysis, performTestAnalysis, h]
  · intro h
    have h' : ¬ (80 ≤ health.score) := by omega
    simp [buildAuditResults, performGitAnalysis, performStaticAnalysis,
      performDependencyAnalysis, performTestAnalysis, h']

/-- Witness for C1: concrete runs at scores 90 and 70. -/
theorem deep_audit_gating_witness :
    (80 ≤ (⟨90, "Healthy codebase"⟩ : HealthBlock).score ∧
      (buildAuditResults ⟨90, "Healthy codebase"⟩ (profileCodebase none false [])
          ["c1"] [⟨some "alice", 7⟩] (some ["react", "vue", "redux", "axios"]) 2
          4).gitAnalysis = emptyGitAnalysis) ∧
    ((⟨70, "Needs full audit"⟩ : HealthBlock).score < 80 ∧
      (buildAuditResults ⟨70, "Needs full audit"⟩ (profileCodebase none false [])
          ["c1"] [⟨some "alice", 7⟩] (some ["react", "vue", "redux", "axios"]) 2
          4).gitAnalysis.commitFrequency.isSome = true) :=
  ⟨⟨by decide,
      ((deep_audit_gating ⟨90, "Healthy codebase"⟩ (profileCodebase none false [])
          ["c1"] [⟨some "alice", 7⟩] (some ["react", "vue", "redux", "axios"]) 2
          4).1 (by decide)).1⟩,
    ⟨by decide,
      (((deep_audit_gating ⟨70, "Needs full audit"⟩ (profileCodebase none false [])
          ["c1"] [⟨some "alice", 7⟩] (some ["react", "vue", "redux", "axios"]) 2
          4).2 (by decide)).1).1⟩⟩

/-- Claim C2 (code bug): when the supplied weights sum to exactly 0, the
health scorer does NOT fail with a ConfigurationError — the weight
normalization divides by zero and the resulting score is the non-finite JS
value NaN (modelled as `none`); no error path exists in the source. -/
theorem weighted_score_zero_total_is_nan :
    ∀ (m : HealthMetrics) (w : HealthWeights),
      totalWeight w = 0 → calculateWeightedScore m w = none := by
  intro m w h
  simp [calculateWeightedScore, h]

/-- Witness for C2: the all-zero weight assignment. -/
theorem weighted_score_zero_total_is_nan_witness :
    totalWeight zeroWeights = 0 ∧
      calculateWeightedScore ⟨1, 1, 1, 1, 1, 1, 1⟩ zeroWeights = none :=
  ⟨zeroWeights_total,
    weighted_score_zero_total_is_nan ⟨1, 1, 1, 1, 1, 1, 1⟩ zeroWeights
      zeroWeights_total⟩

/-- Counterexample for C3: on the react manifest with threshold 1/2 the
computed confidence (2/67) is below the threshold and the result collapses to
type "unknown" — but the frameworks record is NOT cleared: it still contains
the frontend entry. -/
theorem collapse_frameworks_not_cleared_cex :
    boostedConfidence (detectRaw ((["react", "react-dom"] ++ []).eraseDups)) <
        1/2 ∧
      (detectCodebaseType ["react", "react-dom"] [] (1/2)).types = ["unknown"] ∧
      (detectCodebaseType ["react", "react-dom"] [] (1/2)).frameworks ≠ [] := by
  have hc : boostedConfidence
      (detectRaw ((["react", "react-dom"] ++ []).eraseDups)) < 1/2 := by
    rw [react_confidence_eq]; norm_num
  have he := detect_collapse_eq ["react", "react-dom"] [] (1/2) hc
  refine ⟨hc, ?_, ?_⟩
  · rw [he]
  · rw [he, detectRaw_react]
    simp

/-- Claim C3 (amended): whenever the computed (boosted) confidence is below
the caller-supplied threshold, the detection result collapses to the single
type "unknown" with confidence forced to 0; the frameworks record, however,
is left as computed (it is not cleared). -/
theorem low_confidence_collapse :
    ∀ (dependencies devDependencies : List String) (confidenceThreshold : ℚ),
      boostedConfidence
          (detectRaw ((dependencies ++ devDependencies).eraseDups)) <
        confidenceThreshold →
      detectCodebaseType dependencies devDependencies confidenceThreshold =
        ⟨["unknown"],
          (detectRaw ((dependencies ++ devDependencies).eraseDups)).frameworks,
          0⟩ :=
  detect_collapse_eq

/-- Witness for C3: the react manifest at threshold 1/2. -/
theorem low_confidence_collapse_witness :
    boostedConfidence (detectRaw ((["react", "react-dom"] ++ []).eraseDups)) <
        1/2 ∧
      detectCodebaseType ["react", "react-dom"] [] (1/2) =
        ⟨["unknown"],
          (detectRaw ((["react", "react-dom"] ++ []).eraseDups)).frameworks,
          0⟩ :=
  have hc : boostedConfidence
      (detectRaw ((["react", "react-dom"] ++ []).eraseDups)) < 1/2 := by
    rw [react_confidence_eq]; norm_num
  ⟨hc, low_confidence_collapse ["react", "react-dom"] [] (1/2) hc⟩

/-- Counterexample for C4: with only react and react-dom as dependencies and
confidence threshold 0.3, the detected types do NOT include "frontend" — the
computed confidence 2/67 is below 0.3, so the result collapses to "unknown". -/
theorem react_threshold_03_cex :
    ¬ ("frontend" ∈
      (detectCodebaseType ["react", "react-dom"] [] (3/10)).types) := by
  have hc : boostedConfidence
      (detectRaw ((["react", "react-dom"] ++ []).eraseDups)) < 3/10 := by
    rw [react_confidence_eq]; norm_num
  rw [detect_collapse_eq ["react", "react-dom"] [] (3/10) hc]
  decide

/-- Claim C4 (amended): on a manifest with only react and react-dom, the
computed confidence is 2/67 (2 matched identifiers out of 67), so both
threshold 0.3 and threshold 0.99 collapse the result to the single type
"unknown" with confidence 0 (the frameworks record still maps frontend to
react); "frontend" is reported, with frameworks mapping frontend to react,
exactly when the threshold does not exceed 2/67. -/
theorem react_detection_thresholds :
    detectCodebaseType ["react", "react-dom"] [] (3/10) =
        ⟨["unknown"], [("frontend", ["react"])], 0⟩ ∧
      detectCodebaseType ["react", "react-dom"] [] (99/100) =
        ⟨["unknown"], [("frontend", ["react"])], 0⟩ ∧
      detectCodebaseType ["react", "react-dom"] [] (2/67) =
        ⟨["frontend"], [("frontend", ["react"])], 2/67⟩ := by
  have h3 : boostedConfidence
      (detectRaw ((["react", "react-dom"] ++ []).eraseDups)) < 3/10 := by
    rw [react_confidence_eq]; norm_num
  have h99 : boostedConfidence
      (detectRaw ((["react", "react-dom"] ++ []).eraseDups)) < 99/100 := by
    rw [react_confidence_eq]; norm_num
  refine ⟨?_, ?_, ?_⟩
  · rw [detect_collapse_eq ["react", "react-dom"] [] (3/10) h3, detectRaw_react]
  · rw [detect_collapse_eq ["react", "react-dom"] [] (99/100) h99, detectRaw_react]
  · unfold detectCodebaseType
    rw [if_neg (by rw [react_confidence_eq]; norm_num),
      if_neg (by rw [detectRaw_react]; simp), detectRaw_react, react_raw_conf]

/-- Claim C5 (code bug): the days-outdated expression in the source divides
only the publish timestamp by 86400000 (operator precedence), so for a latest
version published about 115.7 days before now it reports 1699999980439
instead of the 115 whole days the spec describes — not a plausible day
count. -/
theorem daysOutdated_precedence_bug :
    computeDaysOutdated 1700000000000 1690000000000 = 1699999980439 ∧
      daysOutdatedPerSpec 1700000000000 1690000000000 = 115 ∧
      computeDaysOutdated 1700000000000 1690000000000 ≠
        daysOutdatedPerSpec 1700000000000 1690000000000 := by
  have h1 : computeDaysOutdated 1700000000000 1690000000000 = 1699999980439 := by
    unfold computeDaysOutdated
    rw [Int.floor_eq_iff]
    norm_num
  have h2 : daysOutdatedPerSpec 1700000000000 1690000000000 = 115 := by
    unfold daysOutdatedPerSpec
    rw [Int.floor_eq_iff]
    norm_num
  exact ⟨h1, h2, by rw [h1, h2]; decide⟩

/-- Claim C6: the dependency audit health status is a pure function of the
score given by fixed bands (≥90 excellent, ≥80 good, ≥60 fair, ≥40 poor, else
critical); in particular score 80 yields "good" and score 60 yields "fair". -/
theorem healthStatus_bands :
    (∀ s : ℤ,
      (90 ≤ s → getHealthStatus s = "excellent") ∧
      (80 ≤ s ∧ s < 90 → getHealthStatus s = "good") ∧
      (60 ≤ s ∧ s < 80 → getHealthStatus s = "fair") ∧
      (40 ≤ s ∧ s < 60 → getHealthStatus s = "poor") ∧
      (s < 40 → getHealthStatus s = "critical")) ∧
    getHealthStatus 80 = "good" ∧ getHealthStatus 60 = "fair" := by
  refine ⟨fun s => ⟨?_, ?_, ?_, ?_, ?_⟩, by decide, by decide⟩ <;>
    · intro h
      unfold getHealthStatus
      split_ifs <;> first | rfl | omega

/-- Witness for C6: score 85 lies in the good band. -/
theorem healthStatus_bands_witness :
    ((80 : ℤ) ≤ 85 ∧ (85 : ℤ) < 90) ∧ getHealthStatus 85 = "good" :=
  ⟨⟨by decide, by decide⟩, (healthStatus_bands.1 85).2.1 ⟨by decide, by decide⟩⟩

unseal List.merge List.mergeSort in
lemma sortProblematic_example :
    sortProblematic
        [⟨"B", "1.0.0", "2.0.0", 400, [], none, false⟩,
          ⟨"A", "1.0.0", "2.0.0", 10, [("high", "x"), ("low", "y")], none,
            false⟩] =
      [⟨"A", "1.0.0", "2.0.0", 10, [("high", "x"), ("low", "y")], none, false⟩,
        ⟨"B", "1.0.0", "2.0.0", 400, [], none, false⟩] := rfl

/-- Claim C7: the sorted problematic-dependencies list is worst-first — for
any two entries, the earlier one has strictly more vulnerabilities, or the
same number of vulnerabilities and at least as many days outdated; in
particular an entry with 2 vulnerabilities and 10 days outdated sorts before
one with 0 vulnerabilities and 400 days outdated. -/
theorem problematic_sorted_worst_first :
    (∀ l : List ProblematicDep,
      (sortProblematic l).Pairwise fun a b =>
        b.vulnerabilities.length < a.vulnerabilities.length ∨
          (b.vulnerabilities.length = a.vulnerabilities.length ∧
            b.daysOutdated ≤ a.daysOutdated)) ∧
    sortProblematic
        [⟨"B", "1.0.0", "2.0.0", 400, [], none, false⟩,
          ⟨"A", "1.0.0", "2.0.0", 10, [("high", "x"), ("low", "y")], none,
            false⟩] =
      [⟨"A", "1.0.0", "2.0.0", 10, [("high", "x"), ("low", "y")], none, false⟩,
        ⟨"B", "1.0.0", "2.0.0", 400, [], none, false⟩] := by
  constructor
  · intro l
    have h := List.sorted_mergeSort depBefore_trans depBefore_total l
    exact h.imp fun hx => by simpa only [depBefore, decide_eq_true_eq] using hx
  · exact sortProblematic_example

/-- Claim C8: with zero parsed coverage reports the analyzer returns exactly
the degenerate result (coverage 0, 0 reports, low coverage, non-empty
recommendations) instead of an error; with reports, the coverage is the
rounded mean of the per-report percentages (80 and 60 average to 70) and
hasLowCoverage holds exactly when the coverage is below 70. -/
theorem test_coverage_results :
    (testCoverageExecute [] = noReportsFound ∧
      noReportsFound.coverage = 0 ∧ noReportsFound.reportCount = 0 ∧
      noReportsFound.hasLowCoverage = true ∧
      noReportsFound.recommendations ≠ []) ∧
    ((testCoverageExecute [⟨100, 80, 80⟩, ⟨100, 60, 60⟩]).coverage = 70 ∧
      (testCoverageExecute [⟨100, 80, 80⟩, ⟨100, 60, 60⟩]).hasLowCoverage =
        false) ∧
    (∀ reports : List CoverageData, reports ≠ [] →
      ((testCoverageExecute reports).hasLowCoverage = true ↔
        calculateAverageCoverage reports < 70)) := by
  have havg : calculateAverageCoverage [⟨100, 80, 80⟩, ⟨100, 60, 60⟩] = 70 := by
    unfold calculateAverageCoverage jsRound
    simp only [List.map_cons, List.map_nil, List.sum_cons, List.sum_nil,
      List.length_cons, List.length_nil]
    rw [Int.floor_eq_iff]
    norm_num
  refine ⟨⟨by simp [testCoverageExecute], rfl, rfl, rfl, by simp [noReportsFound]⟩,
    ⟨?_, ?_⟩, ?_⟩
  · simp [testCoverageExecute, havg]
  · simp [testCoverageExecute, havg]
  · intro reports hne
    simp [testCoverageExecute, hne]

/-- Witness for C8: the two-report input at 80% and 60%. -/
theorem test_coverage_results_witness :
    ([⟨100, 80, 80⟩, ⟨100, 60, 60⟩] : List CoverageData) ≠ [] ∧
      ((testCoverageExecute [⟨100, 80, 80⟩, ⟨100, 60, 60⟩]).hasLowCoverage =
          true ↔
        calculateAverageCoverage [⟨100, 80, 80⟩, ⟨100, 60, 60⟩] < 70) :=
  ⟨by simp, test_coverage_results.2.2 [⟨100, 80, 80⟩, ⟨100, 60, 60⟩] (by simp)⟩

/-- Claim C9: a failing README lookup never propagates out of the health
scorer: `checkFileExists` absorbs every lookup failure into `false` (it is a
total function — no exception escapes), and the documentation sub-metric then
simply receives no README contribution: it is 0.4 when LICENSE exists and 0
otherwise (0.6 is contributed only when README exists). -/
theorem readme_notfound_absorbed :
    ∀ (e : String) (licenseLookup : Except String Unit),
      checkFileExists (Except.error e) = false ∧
      documentationMetric (checkFileExists (Except.error e))
          (checkFileExists licenseLookup) =
        (if checkFileExists licenseLookup then 2/5 else 0) := by
  intro e licenseLookup
  refine ⟨rfl, ?_⟩
  simp [documentationMetric, checkFileExists]

/-- Claim C10: the type detector always reports at least one type — for every
dependency set and threshold, the returned types list is non-empty (it
contains "unknown" both when confidence collapses below the threshold and
when nothing matched at all). -/
theorem detected_types_nonempty :
    ∀ (dependencies devDependencies : List String) (confidenceThreshold : ℚ),
      (detectCodebaseType dependencies devDependencies confidenceThreshold).types ≠
        [] := by
  intro dependencies devDependencies confidenceThreshold
  unfold detectCodebaseType
  split_ifs with h1 h2
  · simp
  · simp
  · simpa using h2

end CodebaseAudit
